import Mathlib

/-!
Verification of the Display Technology Classification Engine
(`build_schema.py`): a shallow embedding of the schema merge, the attribute
derivation rules, the KSF reclassification pass and the output invariants.

Pandas/Python value semantics are made explicit: a dataframe cell is either
the float NaN (missing value, produced by `read_csv` for an empty cell and
by a left-join miss), a string, or a finite number.  Finite floats are
modelled as exact decimal numbers `num / 10 ^ exp` over `ℤ`/`ℕ` (the values
in this pipeline are decimal literals from CSV files, and the only numeric
operations are the order comparison against 28 and the integrality test of
the nullable-integer cast, both of which are exact on decimals); a bridge
lemma relates the decimal comparison to the rational order.
-/

/-- An exact decimal number `num / 10 ^ exp`, the model of a finite Python
float arising from a decimal literal. -/
structure Dec where
  num : ℤ
  exp : ℕ
deriving DecidableEq, Repr

/-- The rational value of a decimal. -/
def Dec.toRat (d : Dec) : ℚ := (d.num : ℚ) / 10 ^ d.exp

/-- Strict order comparison of decimals by cross-multiplication. -/
def Dec.blt (a b : Dec) : Bool := a.num * 10 ^ b.exp < b.num * 10 ^ a.exp

/-- A decimal has an integral value iff its numerator is divisible by
`10 ^ exp`. -/
def Dec.isInt (a : Dec) : Bool := a.num % ((10 : ℤ) ^ a.exp) = 0

/-- The integer value of an integral decimal. -/
def Dec.toInt (a : Dec) : ℤ := a.num / (10 : ℤ) ^ a.exp

/-- `Dec.blt` agrees with the order on the rational values. -/
theorem Dec.blt_iff (a b : Dec) : a.blt b = true ↔ a.toRat < b.toRat := by
  unfold Dec.blt Dec.toRat
  rw [decide_eq_true_iff, div_lt_div_iff₀ (by positivity) (by positivity)]
  constructor
  · intro h
    exact_mod_cast h
  · intro h
    exact_mod_cast h

/-- `Dec.isInt` and `Dec.toInt` agree with the rational value. -/
theorem Dec.isInt_toRat (a : Dec) (h : a.isInt = true) : ((a.toInt : ℚ)) = a.toRat := by
  unfold Dec.isInt at h
  unfold Dec.toInt Dec.toRat
  rw [decide_eq_true_iff] at h
  obtain ⟨k, hk⟩ := Int.dvd_of_emod_eq_zero h
  have hpow : ((10 : ℤ) ^ a.exp : ℚ) ≠ 0 := by positivity
  rw [hk, Int.mul_ediv_cancel_left _ (by positivity)]
  push_cast
  field_simp

/-- A pandas dataframe cell: NaN (missing), a string, or a finite number. -/
inductive Cell where
  | nan : Cell
  | str (s : String) : Cell
  | num (d : Dec) : Cell
deriving DecidableEq, Repr, Inhabited

/-- Python truthiness (`bool(x)`): NaN is truthy, a string is truthy iff
non-empty, a number is truthy iff nonzero. -/
def truthy : Cell → Bool
  | Cell.nan => true
  | Cell.str s => s ≠ ""
  | Cell.num d => d.num ≠ 0

/-- A Python float value: NaN, an infinity, or a finite value. -/
inductive FloatV where
  | nan : FloatV
  | pinf : FloatV
  | ninf : FloatV
  | val (d : Dec) : FloatV
deriving DecidableEq, Repr

/-- IEEE comparison `v < bound` for a finite bound: False whenever `v` is
NaN (this is the semantics of `<` on a Python float). -/
def floatLt (v : FloatV) (bound : Dec) : Bool :=
  match v with
  | FloatV.nan => false
  | FloatV.pinf => false
  | FloatV.ninf => true
  | FloatV.val d => d.blt bound

/-- ASCII lower-casing of one character. -/
def lowerChar (c : Char) : Char :=
  if 'A' ≤ c ∧ c ≤ 'Z' then Char.ofNat (c.toNat + 32) else c

/-- Strip leading and trailing whitespace from a character list. -/
def trimChars (cs : List Char) : List Char :=
  ((cs.dropWhile Char.isWhitespace).reverse.dropWhile Char.isWhitespace).reverse

/-- Accumulate a digit list into a natural number. -/
def digitsVal (ds : List Char) : ℕ :=
  ds.foldl (fun a c => a * 10 + (c.toNat - 48)) 0

/-- Decimal literal accepted by Python `float()` / `pd.to_numeric`:
optional surrounding whitespace, optional sign, digits with an optional
fractional part (the exponent form and underscores do not occur in this
data and are not modelled). -/
def parseDecimal (s : String) : Option Dec :=
  let cs := trimChars s.data
  let signAndRest : Bool × List Char :=
    match cs with
    | '-' :: rest => (true, rest)
    | '+' :: rest => (false, rest)
    | _ => (false, cs)
  let neg := signAndRest.1
  let body := signAndRest.2
  let intPart := body.takeWhile Char.isDigit
  let rest := body.dropWhile Char.isDigit
  let signed : ℕ → ℤ := fun n => if neg then -(n : ℤ) else (n : ℤ)
  match rest with
  | [] =>
      if intPart.isEmpty then none
      else some ⟨signed (digitsVal intPart), 0⟩
  | '.' :: fracCs =>
      let fracPart := fracCs.takeWhile Char.isDigit
      let rest2 := fracCs.dropWhile Char.isDigit
      if rest2.isEmpty && !(intPart.isEmpty && fracPart.isEmpty) then
        some ⟨signed (digitsVal (intPart ++ fracPart)), fracPart.length⟩
      else none
  | _ => none

/-- Python `float(s)` on a string: decimal literals plus the special
literals nan/inf (case-insensitive, optionally signed). -/
def pyParseFloat (s : String) : Option FloatV :=
  let low := String.mk ((trimChars s.data).map lowerChar)
  if low = "nan" ∨ low = "+nan" ∨ low = "-nan" then some FloatV.nan
  else if low = "inf" ∨ low = "+inf" ∨ low = "infinity" ∨ low = "+infinity" then
    some FloatV.pinf
  else if low = "-inf" ∨ low = "-infinity" then some FloatV.ninf
  else (parseDecimal s).map FloatV.val

/-- Python `float(x)` on a cell: NaN stays NaN (no exception!), numbers pass
through, strings are parsed, an unparseable string raises `ValueError`. -/
def pyFloat (c : Cell) : Except Unit FloatV :=
  match c with
  | Cell.nan => Except.ok FloatV.nan
  | Cell.num d => Except.ok (FloatV.val d)
  | Cell.str s =>
      match pyParseFloat s with
      | some v => Except.ok v
      | none => Except.error ()

/-- `pd.to_numeric(x, errors="coerce")` on a cell: never raises, an
unparseable string coerces to NaN. -/
def toNumericCoerce (c : Cell) : FloatV :=
  match c with
  | Cell.nan => FloatV.nan
  | Cell.num d => FloatV.val d
  | Cell.str s => (pyParseFloat s).getD FloatV.nan

/-- `.astype("Int64")` on a float value: NaN becomes the missing marker
`pd.NA`, a non-integral or infinite float raises (pandas: `cannot safely
cast non-equivalent float64 to int64`), an integral float casts. -/
def astypeInt64 (v : FloatV) : Except Unit (Option ℤ) :=
  match v with
  | FloatV.nan => Except.ok none
  | FloatV.pinf => Except.error ()
  | FloatV.ninf => Except.error ()
  | FloatV.val d => if d.isInt then Except.ok (some d.toInt) else Except.error ()

/-- The dimming-zone-count column transform of `build_schema`:
`pd.to_numeric(col, errors="coerce").astype("Int64")`. -/
def dimmingParse (c : Cell) : Except Unit (Option ℤ) :=
  astypeInt64 (toNumericCoerce c)

/-- Python substring test `needle in hay` (case-sensitive). -/
def strContains (hay needle : String) : Bool :=
  hay.data.tails.any (fun t => needle.data.isPrefixOf t)

/-- Python `s.startswith(p)`. -/
def strStarts (s p : String) : Bool :=
  p.data.isPrefixOf s.data

/-- Decidable equality for `Except` results. -/
def exceptDecEq {ε α : Type} [DecidableEq ε] [DecidableEq α] :
    DecidableEq (Except ε α) := fun x y =>
  match x, y with
  | Except.error e, Except.error f =>
      if h : e = f then isTrue (by rw [h]) else
        isFalse (fun hh => h (Except.error.inj hh))
  | Except.error _, Except.ok _ => isFalse (fun hh => Except.noConfusion hh)
  | Except.ok _, Except.error _ => isFalse (fun hh => Except.noConfusion hh)
  | Except.ok a, Except.ok b =>
      if h : a = b then isTrue (by rw [h]) else
        isFalse (fun hh => h (Except.ok.inj hh))

instance {ε α : Type} [DecidableEq ε] [DecidableEq α] : DecidableEq (Except ε α) :=
  exceptDecEq

/-- Sanity checks: substring tests. -/
theorem sanity_strContains :
    strContains "Samsung QN90D" "QN9" = true ∧
    strContains "Samsung QN90D" "OLED" = false := by decide

/-- Sanity checks: the decimal parser. -/
theorem sanity_parseDecimal :
    parseDecimal "3.5" = some ⟨35, 1⟩ ∧
    parseDecimal " -5 " = some ⟨-5, 0⟩ ∧
    parseDecimal "abc" = none ∧
    pyParseFloat "NaN" = some FloatV.nan := by decide

/-- Sanity checks: the dimming-zone transform and the NaN comparison. -/
theorem sanity_numeric :
    dimmingParse Cell.nan = Except.ok none ∧
    dimmingParse (Cell.str "480") = Except.ok (some 480) ∧
    floatLt FloatV.nan ⟨28, 0⟩ = false ∧
    floatLt (FloatV.val ⟨35, 1⟩) ⟨28, 0⟩ = true := by decide

/-! ## Input rows and the schema merge -/

/-- A row of the specification table `rtings_tv_data.csv` (only the columns
the classification engine consumes; `fullname` and `brand` are always
present strings in this dataset and are consumed as strings by the
derivation rules). -/
structure SpecRow where
  product_id : String
  fullname : String
  brand : String
  panel_type : Cell
  backlight_type : Cell
  dimming_zone_count : Cell
deriving DecidableEq, Repr

/-- A row of the spectral table `spd_analysis_results.csv` (the spectral
columns consumed by the derivation rules; the remaining merged spectral
columns — ground truth and the other peak/FWHM measurements — are
reference-only and are carried by the merge in exactly the same way as
`green_fwhm_nm`). -/
structure SpdRow where
  product_id : String
  spd_classification : Cell
  spd_confidence : Cell
  green_fwhm_nm : Cell
deriving DecidableEq, Repr

/-- A merged row, the result of
`tv_df.merge(spd_df[spd_cols], on="product_id", how="left")`. -/
structure MergedRow where
  product_id : String
  fullname : String
  brand : String
  panel_type : Cell
  backlight_type : Cell
  dimming_zone_count : Cell
  spd_classification : Cell
  spd_confidence : Cell
  green_fwhm_nm : Cell
deriving DecidableEq, Repr, Inhabited

/-- Attach a matching spectral row to a specification row. -/
def mergeWith (s : SpecRow) (p : SpdRow) : MergedRow :=
  { product_id := s.product_id
    fullname := s.fullname
    brand := s.brand
    panel_type := s.panel_type
    backlight_type := s.backlight_type
    dimming_zone_count := s.dimming_zone_count
    spd_classification := p.spd_classification
    spd_confidence := p.spd_confidence
    green_fwhm_nm := p.green_fwhm_nm }

/-- A specification row with no spectral match: every spectral column is
NaN (left-outer-join fill). -/
def mergeNull (s : SpecRow) : MergedRow :=
  { product_id := s.product_id
    fullname := s.fullname
    brand := s.brand
    panel_type := s.panel_type
    backlight_type := s.backlight_type
    dimming_zone_count := s.dimming_zone_count
    spd_classification := Cell.nan
    spd_confidence := Cell.nan
    green_fwhm_nm := Cell.nan }

/-- The block of merged rows one specification row contributes: one merged
row per matching spectral row, or a single NaN-filled row when there is no
match. -/
def mergeBlock (P : List SpdRow) (s : SpecRow) : List MergedRow :=
  let ms := P.filter (fun p => p.product_id = s.product_id)
  if ms.isEmpty then [mergeNull s] else ms.map (mergeWith s)

/-- The pandas left merge on `product_id`: the concatenation of the blocks
of the specification rows, in order. -/
def leftMerge (S : List SpecRow) (P : List SpdRow) : List MergedRow :=
  (S.map (mergeBlock P)).flatten

/-- The row a specification row merges to when the spectral keys are
unique: the first matching spectral row, or the NaN fill. -/
def mergeOne (P : List SpdRow) (s : SpecRow) : MergedRow :=
  match P.find? (fun p => p.product_id = s.product_id) with
  | some p => mergeWith s p
  | none => mergeNull s

/-! ## Attribute derivation rules (`build_schema.py`) -/

/-- `map_backlight_type(rtings_value, panel_type)`: `None` for OLED panels,
otherwise the dict lookup with pass-through default. -/
def map_backlight_type (rtings_value panel_type : Cell) : Option Cell :=
  if panel_type = Cell.str "OLED" then none
  else if rtings_value = Cell.str "Full-Array" then some (Cell.str "Direct-lit")
  else if rtings_value = Cell.str "Direct" then some (Cell.str "Direct-lit")
  else if rtings_value = Cell.str "Edge" then some (Cell.str "Edge-lit")
  else if rtings_value = Cell.str "No Backlight" then none
  else some rtings_value

/-- `merged["panel_type"].map({"OLED": "OLED", "LCD": "LCD"})`: values
outside the dict go to NaN. -/
def panelMap (c : Cell) : Cell :=
  if c = Cell.str "OLED" then Cell.str "OLED"
  else if c = Cell.str "LCD" then Cell.str "LCD"
  else Cell.nan

/-- `.fillna("LCD")`. -/
def fillnaLCD (c : Cell) : Cell :=
  match c with
  | Cell.nan => Cell.str "LCD"
  | v => v

/-- Column 1, `display_type`:
`merged["panel_type"].map({"OLED": "OLED", "LCD": "LCD"}).fillna("LCD")`. -/
def displayType (panel_type : Cell) : Cell :=
  fillnaLCD (panelMap panel_type)

/-- The brand override table of `determine_qd_material`. -/
def inpBrands : List String := ["Samsung", "Sony", "LG", "Panasonic", "Philips"]

/-- `determine_qd_material(row)`: quantum-dot material from the (possibly
reclassified) color architecture, the brand, and the green-channel FWHM. -/
def determine_qd_material (color_arch : Cell) (brand : String)
    (green_fwhm : Cell) : Option String :=
  if ¬(color_arch = Cell.str "QD-LCD" ∨ color_arch = Cell.str "QD-OLED") then none
  else if color_arch = Cell.str "QD-OLED" then some "InP"
  else if brand ∈ inpBrands then some "InP"
  else
    match pyFloat green_fwhm with
    | Except.ok v => if floatLt v ⟨28, 0⟩ then some "CdSe" else some "InP"
    | Except.error _ =>
        if brand = "Hisense" then some "CdSe"
        else if brand = "TCL" then some "CdSe"
        else some "Unknown"

/-- `determine_marketing_label(row)`, Samsung block. -/
def samsungLabel (name : String) (color_arch : Cell) : String :=
  if strContains name "QN9" || strContains name "QN8" || strContains name "QN7" then
    "Neo QLED"
  else if strStarts name "Samsung Q" && !strContains name "OLED" then "QLED"
  else if strContains name "S95" || strContains name "S90" then "QD-OLED"
  else if strContains name "S85" && strContains name "OLED" then
    (if color_arch = Cell.str "QD-OLED" then "QD-OLED" else "Samsung OLED")
  else if strContains name "Frame" then
    (if strContains name "Pro" then "Neo QLED" else "QLED")
  else if strContains name "DU" || strContains name "U7" || strContains name "U8" then
    "Crystal UHD"
  else ""

/-- `determine_marketing_label(row)`, LG block. -/
def lgLabel (name : String) : String :=
  if strContains name "OLED" then
    (if strContains name "G4" || strContains name "G5" then "OLED evo" else "OLED")
  else if strContains name "QNED" then "QNED"
  else if strContains name "UT" || strContains name "UA" then "UHD"
  else ""

/-- `determine_marketing_label(row)`, Sony block. -/
def sonyLabel (name : String) (color_arch : Cell) : String :=
  if color_arch = Cell.str "QD-OLED" then "QD-OLED"
  else if strContains name "OLED" then "OLED"
  else "BRAVIA"

/-- `determine_marketing_label(row)`, Hisense block. -/
def hisenseLabel (name : String) (color_arch : Cell) : String :=
  if color_arch = Cell.str "QD-LCD" ∨ color_arch = Cell.str "KSF" ∨
      color_arch = Cell.str "Pseudo QD" then
    (if strContains name "U8" || strContains name "U9" then "ULED" else "QLED")
  else if strContains name "Canvas" then "CanvasTV"
  else "ULED"

/-- `determine_marketing_label(row)`: ordered, brand-scoped pattern match
over `fullname`; the Samsung, Sony and Hisense blocks also read the
(pre-reclassification) `color_architecture`. -/
def determine_marketing_label (name brand : String) (color_arch : Cell) : String :=
  if brand = "Samsung" then samsungLabel name color_arch
  else if brand = "LG" then lgLabel name
  else if brand = "Sony" then sonyLabel name color_arch
  else if brand = "Hisense" then hisenseLabel name color_arch
  else if brand = "TCL" then
    (if strContains name "QM" || strContains name "Q7" || strContains name "Q6" then
      "QLED" else "")
  else if brand = "Panasonic" then
    (if strContains name "OLED" then "OLED" else "")
  else if brand = "Roku" then ""
  else if brand = "Sharp" then
    (if strContains name "XLED" then "XLED" else "")
  else if brand = "Philips" then
    (if strContains name "OLED" then "OLED" else "")
  else ""

/-- The marketing label of a merged row: the code computes it before the
reclassification pass, so its `color_architecture` argument is the raw
`spd_classification`. -/
def marketingOf (m : MergedRow) : String :=
  determine_marketing_label m.fullname m.brand m.spd_classification

/-- Column 6, `spd_verified`:
`"Yes" if x and x not in ("NO_SPD_IMAGE", "") and not str(x).startswith("ERROR") else "No"`.
`str(x)` of NaN is `"nan"` and of a number is a sign/digit string, so only a
string cell can have the `"ERROR"` prefix. -/
def spdVerified (x : Cell) : String :=
  let startsERROR : Bool :=
    match x with
    | Cell.str s => strStarts s "ERROR"
    | _ => false
  if truthy x && !(x = Cell.str "NO_SPD_IMAGE" : Bool) && !(x = Cell.str "" : Bool)
      && !startsERROR then
    "Yes"
  else "No"

/-- The marketing labels that trigger the KSF reclassification
(`qled_marketing` in the source). -/
def qled_marketing : List String := ["QLED", "QNED", "ULED"]

/-! ## The classification pipeline -/

/-- A row after the merge and the first derivation stage (columns 1, 2, 2b,
3 and the early marketing label), immediately before the reclassification
pass. -/
structure PreRow where
  product_id : String
  fullname : String
  brand : String
  display_type : Cell
  backlight_type : Option Cell
  dimming_zone_count : Option ℤ
  color_architecture : Cell
  spd_classification : Cell
  spd_confidence : Cell
  green_fwhm_nm : Cell
  marketing_label : String
deriving DecidableEq, Repr

/-- Stage 1 of `build_schema` on one merged row: `display_type`,
`backlight_type_schema`, the dimming-zone parse with its OLED null-forcing,
the copy of `spd_classification` into `color_architecture`, and the early
`marketing_label`.  The nullable-integer cast can raise, so the stage is
fallible. -/
def stage1 (m : MergedRow) : Except Unit PreRow :=
  match dimmingParse m.dimming_zone_count with
  | Except.error e => Except.error e
  | Except.ok dz =>
      Except.ok
        { product_id := m.product_id
          fullname := m.fullname
          brand := m.brand
          display_type := displayType m.panel_type
          backlight_type := map_backlight_type m.backlight_type m.panel_type
          dimming_zone_count :=
            if displayType m.panel_type = Cell.str "OLED" then none else dz
          color_architecture := m.spd_classification
          spd_classification := m.spd_classification
          spd_confidence := m.spd_confidence
          green_fwhm_nm := m.green_fwhm_nm
          marketing_label := marketingOf m }

/-- The KSF → Pseudo QD reclassification pass on one row: rows whose
`color_architecture` is `"KSF"` and whose `marketing_label` is in
`qled_marketing` get `color_architecture = "Pseudo QD"` and
`spd_confidence = "medium"`; every other row is untouched. -/
def reclassRow (p : PreRow) : PreRow :=
  if p.color_architecture = Cell.str "KSF" ∧ p.marketing_label ∈ qled_marketing then
    { p with color_architecture := Cell.str "Pseudo QD",
             spd_confidence := Cell.str "medium" }
  else p

/-- The reclassification pass over the whole row-set. -/
def reclassPass (rows : List PreRow) : List PreRow :=
  rows.map reclassRow

/-- A fully classified output row (the schema columns of the final
artifact). -/
structure OutRow where
  product_id : String
  fullname : String
  brand : String
  display_type : Cell
  backlight_type : Option Cell
  dimming_zone_count : Option ℤ
  color_architecture : Cell
  qd_present : String
  qd_material : Option String
  spd_verified : String
  marketing_label : String
  spd_classification : Cell
  spd_confidence : Cell
deriving DecidableEq, Repr

/-- Stage 2 of `build_schema` on one row, strictly after the
reclassification pass: `qd_present`, `qd_material` and `spd_verified`. -/
def stage2 (p : PreRow) : OutRow :=
  { product_id := p.product_id
    fullname := p.fullname
    brand := p.brand
    display_type := p.display_type
    backlight_type := p.backlight_type
    dimming_zone_count := p.dimming_zone_count
    color_architecture := p.color_architecture
    qd_present :=
      if p.color_architecture = Cell.str "QD-LCD" ∨
          p.color_architecture = Cell.str "QD-OLED" then "Yes" else "No"
    qd_material :=
      determine_qd_material p.color_architecture p.brand p.green_fwhm_nm
    spd_verified := spdVerified p.spd_classification
    marketing_label := p.marketing_label
    spd_classification := p.spd_classification
    spd_confidence := p.spd_confidence }

/-- The whole per-row pipeline: merge output → stage 1 → reclassification →
stage 2. -/
def classifyRow (m : MergedRow) : Except Unit OutRow :=
  match stage1 m with
  | Except.error e => Except.error e
  | Except.ok p => Except.ok (stage2 (reclassRow p))

/-- The classification engine on the two input tables. -/
def buildSchema (S : List SpecRow) (P : List SpdRow) : Except Unit (List OutRow) :=
  (leftMerge S P).mapM classifyRow

/-! ## Helper lemmas about the reclassification pass -/

/-- The pass touches no field other than `color_architecture` and
`spd_confidence`. -/
theorem reclassRow_frame (p : PreRow) :
    (reclassRow p).product_id = p.product_id ∧
    (reclassRow p).fullname = p.fullname ∧
    (reclassRow p).brand = p.brand ∧
    (reclassRow p).display_type = p.display_type ∧
    (reclassRow p).backlight_type = p.backlight_type ∧
    (reclassRow p).dimming_zone_count = p.dimming_zone_count ∧
    (reclassRow p).spd_classification = p.spd_classification ∧
    (reclassRow p).green_fwhm_nm = p.green_fwhm_nm ∧
    (reclassRow p).marketing_label = p.marketing_label := by
  unfold reclassRow
  split_ifs with h <;> exact ⟨rfl, rfl, rfl, rfl, rfl, rfl, rfl, rfl, rfl⟩

/-- A row already classified `"Pseudo QD"` is not touched by the pass. -/
theorem reclassRow_pseudo (p : PreRow)
    (hp : p.color_architecture = Cell.str "Pseudo QD") : reclassRow p = p := by
  have hcond : ¬(p.color_architecture = Cell.str "KSF" ∧
      p.marketing_label ∈ qled_marketing) := by
    intro hc
    rw [hp] at hc
    exact absurd hc.1 (by decide)
  unfold reclassRow
  rw [if_neg hcond]

/-- The row-level pass is idempotent. -/
theorem reclassRow_idem (p : PreRow) : reclassRow (reclassRow p) = reclassRow p := by
  by_cases h : p.color_architecture = Cell.str "KSF" ∧ p.marketing_label ∈ qled_marketing
  · have h1 : reclassRow p =
        { p with color_architecture := Cell.str "Pseudo QD",
                 spd_confidence := Cell.str "medium" } := by
      unfold reclassRow
      rw [if_pos h]
    rw [h1]
    exact reclassRow_pseudo _ rfl
  · have h1 : reclassRow p = p := by
      unfold reclassRow
      rw [if_neg h]
    rw [h1]
    exact h1

/-! ## Claim C1 — the reclassification rule -/

/-- C1: a row whose `color_architecture` is `"KSF"` and whose
`marketing_label` is one of QLED/QNED/ULED is overwritten to
`"Pseudo QD"` with `spd_confidence = "medium"`; a KSF row with any other
marketing label (the empty string included) keeps `color_architecture =
"KSF"` and its `spd_confidence` unchanged. -/
theorem c1_reclassification (p : PreRow) :
    (p.color_architecture = Cell.str "KSF" → p.marketing_label ∈ qled_marketing →
      (reclassRow p).color_architecture = Cell.str "Pseudo QD" ∧
      (reclassRow p).spd_confidence = Cell.str "medium") ∧
    (p.color_architecture = Cell.str "KSF" → p.marketing_label ∉ qled_marketing →
      (reclassRow p).color_architecture = Cell.str "KSF" ∧
      (reclassRow p).spd_confidence = p.spd_confidence) := by
  unfold reclassRow
  split_ifs with h
  · exact ⟨fun _ _ => ⟨rfl, rfl⟩, fun _ hnot => absurd h.2 hnot⟩
  · exact ⟨fun h1 h2 => absurd ⟨h1, h2⟩ h, fun h1 _ => ⟨h1, rfl⟩⟩

/-- A concrete KSF row marketed as QLED. -/
def wKsfRow : PreRow :=
  { product_id := "tv-001"
    fullname := "Hisense U7N"
    brand := "Hisense"
    display_type := Cell.str "LCD"
    backlight_type := some (Cell.str "Direct-lit")
    dimming_zone_count := some 120
    color_architecture := Cell.str "KSF"
    spd_classification := Cell.str "KSF"
    spd_confidence := Cell.str "high"
    green_fwhm_nm := Cell.nan
    marketing_label := "QLED" }

theorem c1_reclassification_witness :
    (reclassRow wKsfRow).color_architecture = Cell.str "Pseudo QD" ∧
    (reclassRow wKsfRow).spd_confidence = Cell.str "medium" :=
  (c1_reclassification wKsfRow).1 rfl (by decide)

/-! ## Claim C7 — frame effect of the pass -/

/-- C7: the pass modifies only `color_architecture` and `spd_confidence`:
every other field — `spd_classification` and `marketing_label` in
particular — is identical before and after, and the `spd_verified` value
derived after the pass equals the one computed from the raw
`spd_classification` of the row before the pass. -/
theorem c7_reclass_frame (p : PreRow) :
    (reclassRow p).product_id = p.product_id ∧
    (reclassRow p).fullname = p.fullname ∧
    (reclassRow p).brand = p.brand ∧
    (reclassRow p).display_type = p.display_type ∧
    (reclassRow p).backlight_type = p.backlight_type ∧
    (reclassRow p).dimming_zone_count = p.dimming_zone_count ∧
    (reclassRow p).spd_classification = p.spd_classification ∧
    (reclassRow p).green_fwhm_nm = p.green_fwhm_nm ∧
    (reclassRow p).marketing_label = p.marketing_label ∧
    (stage2 (reclassRow p)).spd_verified = spdVerified p.spd_classification := by
  have hframe := reclassRow_frame p
  refine ⟨hframe.1, hframe.2.1, hframe.2.2.1, hframe.2.2.2.1, hframe.2.2.2.2.1,
    hframe.2.2.2.2.2.1, hframe.2.2.2.2.2.2.1, hframe.2.2.2.2.2.2.2.1,
    hframe.2.2.2.2.2.2.2.2, ?_⟩
  show spdVerified (reclassRow p).spd_classification = spdVerified p.spd_classification
  rw [hframe.2.2.2.2.2.2.1]

/-! ## Claim C8 — idempotence of the pass -/

/-- C8: applying the pass twice to a row-set yields the same result as
applying it once, and a row whose `color_architecture` is `"Pseudo QD"` is
never reclassified again. -/
theorem c8_idempotent (rows : List PreRow) (p : PreRow)
    (hp : p.color_architecture = Cell.str "Pseudo QD") :
    reclassPass (reclassPass rows) = reclassPass rows ∧ reclassRow p = p := by
  constructor
  · unfold reclassPass
    rw [List.map_map]
    exact List.map_congr_left (fun a _ => reclassRow_idem a)
  · exact reclassRow_pseudo p hp

/-- A concrete row already classified `"Pseudo QD"`. -/
def wPseudoRow : PreRow :=
  { wKsfRow with color_architecture := Cell.str "Pseudo QD",
                 spd_confidence := Cell.str "medium" }

theorem c8_idempotent_witness :
    reclassPass (reclassPass [wKsfRow]) = reclassPass [wKsfRow] ∧
    reclassRow wPseudoRow = wPseudoRow :=
  c8_idempotent [wKsfRow] wPseudoRow rfl

/-! ## Claim C3 — the qd_material decision chain on a missing FWHM -/

/-- C3: the missing-FWHM branch of `determine_qd_material` is not the brand
fallback the chain promises.  A QD-LCD row of a non-override brand whose
green-channel FWHM is missing (NaN — the value `read_csv` and a left-join
miss produce) takes the `float()` branch, because `float(nan)` succeeds,
and `nan < 28` is False, so the row gets `"InP"`; the Hisense/TCL → CdSe
fallback is reached only by a cell that makes `float()` raise, such as a
non-numeric string.  (First conjunct: the divergence at the failing input;
second conjunct: the fallback the claim expects, reached only on an
unparseable string.) -/
theorem c3_qd_material_missing_fwhm :
    determine_qd_material (Cell.str "QD-LCD") "Hisense" Cell.nan = some "InP" ∧
    determine_qd_material (Cell.str "QD-LCD") "Hisense" (Cell.str "") = some "CdSe" := by
  decide

/-! ## Claim C4 — spd_verified on a missing raw classification -/

/-- C4: `spd_verified` of a missing `spd_classification` is `"Yes"`, not
`"No"`: NaN is truthy in Python, is not equal to either sentinel string,
and `str(nan) = "nan"` has no `"ERROR"` prefix, so the lambda returns
`"Yes"` for a row with no spectral match.  The string cases behave as the
claim states (remaining conjuncts). -/
theorem c4_spd_verified_missing :
    spdVerified Cell.nan = "Yes" ∧
    spdVerified (Cell.str "") = "No" ∧
    spdVerified (Cell.str "NO_SPD_IMAGE") = "No" ∧
    spdVerified (Cell.str "ERROR_NO_FIT") = "No" ∧
    spdVerified (Cell.str "WOLED") = "Yes" := by
  decide

/-! ## Claim C5 — what marketing_label is a function of -/

/-- A Sony LCD row whose spectral classification is QD-OLED. -/
def mSonyQdOled : MergedRow :=
  { product_id := "tv-101"
    fullname := "Sony X90L"
    brand := "Sony"
    panel_type := Cell.str "LCD"
    backlight_type := Cell.str "Full-Array"
    dimming_zone_count := Cell.nan
    spd_classification := Cell.str "QD-OLED"
    spd_confidence := Cell.str "high"
    green_fwhm_nm := Cell.nan }

/-- The same row with spectral classification WLED. -/
def mSonyWled : MergedRow :=
  { mSonyQdOled with spd_classification := Cell.str "WLED" }

/-- C5 fails as stated: two merged rows agreeing on `brand` and `fullname`
but differing in `spd_classification` get different marketing labels
(`"QD-OLED"` versus `"BRAVIA"`), because `determine_marketing_label` also
reads the row's (pre-reclassification) `color_architecture`. -/
theorem c5_counterexample :
    mSonyQdOled.brand = mSonyWled.brand ∧
    mSonyQdOled.fullname = mSonyWled.fullname ∧
    marketingOf mSonyQdOled ≠ marketingOf mSonyWled := by
  decide

/-- C5 amended: `marketing_label` is a function of `brand`, `fullname` and
the raw `spd_classification` (the `color_architecture` value at
label-derivation time) — any two merged rows agreeing on those three fields
get the same label, whatever their other fields. -/
theorem c5_amended (m₁ m₂ : MergedRow) (hb : m₁.brand = m₂.brand)
    (hn : m₁.fullname = m₂.fullname)
    (hc : m₁.spd_classification = m₂.spd_classification) :
    marketingOf m₁ = marketingOf m₂ := by
  unfold marketingOf
  rw [hb, hn, hc]

/-- The QD-OLED Sony row with a different panel type, backlight and
dimming-zone raw value. -/
def mSonyOther : MergedRow :=
  { mSonyQdOled with panel_type := Cell.str "OLED",
                     backlight_type := Cell.nan,
                     dimming_zone_count := Cell.str "8294400" }

theorem c5_amended_witness : marketingOf mSonyOther = marketingOf mSonyQdOled :=
  c5_amended mSonyOther mSonyQdOled rfl rfl rfl

/-! ## Pipeline inversion helpers -/

/-- Unfold a successful `classifyRow` into its stages. -/
theorem classifyRow_ok {m : MergedRow} {r : OutRow}
    (h : classifyRow m = Except.ok r) :
    ∃ p, stage1 m = Except.ok p ∧ r = stage2 (reclassRow p) := by
  unfold classifyRow at h
  cases hs : stage1 m with
  | error e =>
      rw [hs] at h
      cases h
  | ok p =>
      rw [hs] at h
      exact ⟨p, rfl, (Except.ok.inj h).symm⟩

/-- Unfold a successful `stage1` into the field values it assigns. -/
theorem stage1_ok {m : MergedRow} {p : PreRow}
    (h : stage1 m = Except.ok p) :
    ∃ dz, dimmingParse m.dimming_zone_count = Except.ok dz ∧
      p = { product_id := m.product_id
            fullname := m.fullname
            brand := m.brand
            display_type := displayType m.panel_type
            backlight_type := map_backlight_type m.backlight_type m.panel_type
            dimming_zone_count :=
              if displayType m.panel_type = Cell.str "OLED" then none else dz
            color_architecture := m.spd_classification
            spd_classification := m.spd_classification
            spd_confidence := m.spd_confidence
            green_fwhm_nm := m.green_fwhm_nm
            marketing_label := marketingOf m } := by
  unfold stage1 at h
  cases hd : dimmingParse m.dimming_zone_count with
  | error e =>
      rw [hd] at h
      cases h
  | ok dz =>
      rw [hd] at h
      exact ⟨dz, rfl, (Except.ok.inj h).symm⟩

/-- `determine_qd_material` is `None` exactly off the QD architectures. -/
theorem determine_qd_material_none (a : Cell) (b : String) (c : Cell)
    (h : ¬(a = Cell.str "QD-LCD" ∨ a = Cell.str "QD-OLED")) :
    determine_qd_material a b c = none := by
  unfold determine_qd_material
  rw [if_pos h]

/-- `displayType` is `"OLED"` exactly on an `"OLED"` panel type. -/
theorem displayType_OLED_iff (c : Cell) :
    displayType c = Cell.str "OLED" ↔ c = Cell.str "OLED" := by
  unfold displayType panelMap
  split_ifs with h1 h2
  · exact iff_of_true rfl h1
  · exact iff_of_false (by decide) h1
  · exact iff_of_false (by decide) h1

/-- `displayType` is `"OLED"` or `"LCD"`, never NaN. -/
theorem displayType_cases (c : Cell) :
    displayType c = Cell.str "OLED" ∨ displayType c = Cell.str "LCD" := by
  unfold displayType panelMap
  split_ifs with h1 h2
  · exact Or.inl rfl
  · exact Or.inr rfl
  · exact Or.inr rfl

/-- A default output row, for total extraction from `Except`. -/
instance : Inhabited OutRow :=
  ⟨{ product_id := ""
     fullname := ""
     brand := ""
     display_type := Cell.nan
     backlight_type := none
     dimming_zone_count := none
     color_architecture := Cell.nan
     qd_present := ""
     qd_material := none
     spd_verified := ""
     marketing_label := ""
     spd_classification := Cell.nan
     spd_confidence := Cell.nan }⟩

/-- The classified row of a merged row (total accessor; meaningful when
`classifyRow` succeeds). -/
def classifiedOf (m : MergedRow) : OutRow :=
  (classifyRow m).toOption.getD default

/-! ## Claim C2 — the qd_present invariant -/

/-- C2: in every successfully classified output row, `qd_present = "Yes"`
iff the final (possibly reclassified) `color_architecture` is `"QD-LCD"` or
`"QD-OLED"`; a `"Pseudo QD"` row has `qd_present = "No"`; and a non-null
`qd_material` forces `qd_present = "Yes"`. -/
theorem c2_qd_present (m : MergedRow) (r : OutRow)
    (h : classifyRow m = Except.ok r) :
    (r.qd_present = "Yes" ↔
      (r.color_architecture = Cell.str "QD-LCD" ∨
       r.color_architecture = Cell.str "QD-OLED")) ∧
    (r.color_architecture = Cell.str "Pseudo QD" → r.qd_present = "No") ∧
    (r.qd_material ≠ none → r.qd_present = "Yes") := by
  obtain ⟨p, hp, hr⟩ := classifyRow_ok h
  subst hr
  set q := reclassRow p with hq
  have e1 : (stage2 q).qd_present =
      if (q.color_architecture = Cell.str "QD-LCD" ∨
          q.color_architecture = Cell.str "QD-OLED") then "Yes" else "No" := rfl
  have e2 : (stage2 q).color_architecture = q.color_architecture := rfl
  have e3 : (stage2 q).qd_material =
      determine_qd_material q.color_architecture q.brand q.green_fwhm_nm := rfl
  rw [e1, e2, e3]
  by_cases hc : q.color_architecture = Cell.str "QD-LCD" ∨
      q.color_architecture = Cell.str "QD-OLED"
  · rw [if_pos hc]
    refine ⟨iff_of_true rfl hc, fun hps => ?_, fun _ => rfl⟩
    rw [hps] at hc
    rcases hc with hc | hc <;> exact absurd hc (by decide)
  · rw [if_neg hc]
    refine ⟨iff_of_false (by decide) hc, fun _ => rfl, fun hm => ?_⟩
    exact absurd (determine_qd_material_none _ _ _ hc) hm

/-- A Hisense U8N row whose SPD says KSF: it is reclassified to Pseudo QD
(marketing label ULED) and must come out with `qd_present = "No"`. -/
def mHisenseKsf : MergedRow :=
  { product_id := "tv-201"
    fullname := "Hisense U8N"
    brand := "Hisense"
    panel_type := Cell.str "LCD"
    backlight_type := Cell.str "Full-Array"
    dimming_zone_count := Cell.str "500"
    spd_classification := Cell.str "KSF"
    spd_confidence := Cell.str "high"
    green_fwhm_nm := Cell.nan }

theorem c2_qd_present_witness :
    (classifiedOf mHisenseKsf).qd_present = "No" :=
  (c2_qd_present mHisenseKsf (classifiedOf mHisenseKsf) (by decide)).2.1 (by decide)

/-! ## Claim C6 — display_type and the OLED null-forcing -/

/-- C6: in every successfully classified output row, `display_type` is
`"OLED"` exactly when the raw `panel_type` is `"OLED"` and `"LCD"`
otherwise (never null); and an OLED row has `backlight_type = null` and
`dimming_zone_count = null` whatever the raw upstream values were. -/
theorem c6_display_type (m : MergedRow) (r : OutRow)
    (h : classifyRow m = Except.ok r) :
    (r.display_type = Cell.str "OLED" ↔ m.panel_type = Cell.str "OLED") ∧
    (r.display_type = Cell.str "OLED" ∨ r.display_type = Cell.str "LCD") ∧
    (r.display_type = Cell.str "OLED" →
      r.backlight_type = none ∧ r.dimming_zone_count = none) := by
  obtain ⟨p, hp, hr⟩ := classifyRow_ok h
  obtain ⟨dz, hdz, hpd⟩ := stage1_ok hp
  subst hr
  have hdisp : p.display_type = displayType m.panel_type := by rw [hpd]
  have hback : p.backlight_type =
      map_backlight_type m.backlight_type m.panel_type := by rw [hpd]
  have hdim : p.dimming_zone_count =
      (if displayType m.panel_type = Cell.str "OLED" then none else dz) := by
    rw [hpd]
  have frame := reclassRow_frame p
  have ed : (stage2 (reclassRow p)).display_type = displayType m.panel_type := by
    show (reclassRow p).display_type = _
    rw [frame.2.2.2.1, hdisp]
  have eb : (stage2 (reclassRow p)).backlight_type =
      map_backlight_type m.backlight_type m.panel_type := by
    show (reclassRow p).backlight_type = _
    rw [frame.2.2.2.2.1, hback]
  have ez : (stage2 (reclassRow p)).dimming_zone_count =
      (if displayType m.panel_type = Cell.str "OLED" then none else dz) := by
    show (reclassRow p).dimming_zone_count = _
    rw [frame.2.2.2.2.2.1, hdim]
  rw [ed, eb, ez]
  refine ⟨displayType_OLED_iff m.panel_type, displayType_cases m.panel_type, ?_⟩
  intro hOled
  have hpanel : m.panel_type = Cell.str "OLED" :=
    (displayType_OLED_iff m.panel_type).mp hOled
  constructor
  · unfold map_backlight_type
    rw [if_pos hpanel]
  · rw [if_pos hOled]

/-- An OLED row whose upstream reports the pixel count 8294400 as its
dimming-zone count and a raw backlight string. -/
def mOledPixels : MergedRow :=
  { product_id := "tv-301"
    fullname := "LG G4 OLED"
    brand := "LG"
    panel_type := Cell.str "OLED"
    backlight_type := Cell.str "Edge"
    dimming_zone_count := Cell.str "8294400"
    spd_classification := Cell.str "WOLED"
    spd_confidence := Cell.str "high"
    green_fwhm_nm := Cell.nan }

theorem c6_display_type_witness :
    (classifiedOf mOledPixels).display_type = Cell.str "OLED" ∧
    (classifiedOf mOledPixels).backlight_type = none ∧
    (classifiedOf mOledPixels).dimming_zone_count = none := by
  have h := c6_display_type mOledPixels (classifiedOf mOledPixels) (by decide)
  have hd : (classifiedOf mOledPixels).display_type = Cell.str "OLED" :=
    (h.1).mpr rfl
  exact ⟨hd, (h.2.2 hd).1, (h.2.2 hd).2⟩

/-! ## Helper lemmas about the left merge -/

/-- No row of `Q` carries the key of `s`: the filter is empty. -/
theorem filter_key_nil (s : SpecRow) (Q : List SpdRow)
    (hQ : ∀ a ∈ Q, a.product_id ≠ s.product_id) :
    Q.filter (fun p => p.product_id = s.product_id) = [] := by
  induction Q with
  | nil => rfl
  | cons a t ih =>
      rw [List.filter_cons, if_neg]
      · exact ih (fun b hb => hQ b (by simp [hb]))
      · simp only [decide_eq_true_eq]
        exact hQ a (by simp)

/-- With pairwise-distinct spectral keys, each block is the single row
`mergeOne` describes. -/
theorem mergeBlock_single (P : List SpdRow) (s : SpecRow)
    (hP : P.Pairwise (fun a b => a.product_id ≠ b.product_id)) :
    mergeBlock P s = [mergeOne P s] := by
  induction P with
  | nil => rfl
  | cons q Q ih =>
      rw [List.pairwise_cons] at hP
      by_cases hq : q.product_id = s.product_id
      · have hqb : decide (q.product_id = s.product_id) = true := by simpa using hq
        have hnil : Q.filter (fun p => decide (p.product_id = s.product_id)) = [] :=
          filter_key_nil s Q (fun a ha he => (hP.1 a ha) (hq.trans he.symm))
        unfold mergeBlock mergeOne
        simp [List.filter_cons, List.find?_cons, hqb, hnil]
      · have hqb : decide (q.product_id = s.product_id) = false := by simpa using hq
        have hblock := ih hP.2
        unfold mergeBlock mergeOne at hblock ⊢
        simpa [List.filter_cons, List.find?_cons, hqb] using hblock

/-- With pairwise-distinct spectral keys, the left merge is the row-wise
map of `mergeOne`. -/
theorem leftMerge_eq_map (S : List SpecRow) (P : List SpdRow)
    (hP : P.Pairwise (fun a b => a.product_id ≠ b.product_id)) :
    leftMerge S P = S.map (mergeOne P) := by
  induction S with
  | nil => rfl
  | cons s t ih =>
      have ihu : (List.map (mergeBlock P) t).flatten = t.map (mergeOne P) := ih
      show (List.map (mergeBlock P) (s :: t)).flatten = _
      rw [List.map_cons, List.flatten_cons, mergeBlock_single P s hP, ihu,
        List.map_cons]
      rfl

/-- A spectral row matching no specification row contributes nothing. -/
theorem leftMerge_orphan (S : List SpecRow) (P : List SpdRow) (p0 : SpdRow)
    (h : ∀ s ∈ S, s.product_id ≠ p0.product_id) :
    leftMerge S (P ++ [p0]) = leftMerge S P := by
  induction S with
  | nil => rfl
  | cons s t ih =>
      show (List.map (mergeBlock (P ++ [p0])) (s :: t)).flatten =
        (List.map (mergeBlock P) (s :: t)).flatten
      rw [List.map_cons, List.flatten_cons, List.map_cons, List.flatten_cons]
      congr 1
      · unfold mergeBlock
        rw [List.filter_append]
        have hnil : List.filter (fun p => decide (p.product_id = s.product_id)) [p0]
            = [] := by
          rw [List.filter_cons, if_neg]
          · rfl
          · simp only [decide_eq_true_eq]
            intro he
            exact (h s (by simp)) he.symm
        rw [hnil, List.append_nil]
      · exact ih (fun a ha => h a (by simp [ha]))

/-- An unmatched specification row merges to the NaN fill. -/
theorem mergeOne_eq_null (P : List SpdRow) (s : SpecRow)
    (h : ∀ p ∈ P, p.product_id ≠ s.product_id) :
    mergeOne P s = mergeNull s := by
  unfold mergeOne
  have hfind : P.find? (fun p => decide (p.product_id = s.product_id)) = none := by
    rw [List.find?_eq_none]
    intro x hx
    simp only [decide_eq_true_eq]
    exact h x hx
  rw [hfind]

/-! ## Claim C9 — merge semantics -/

/-- A specification row. -/
def sDup : SpecRow :=
  { product_id := "tv-dup"
    fullname := "Roku Plus Series"
    brand := "Roku"
    panel_type := Cell.str "LCD"
    backlight_type := Cell.nan
    dimming_zone_count := Cell.nan }

/-- A spectral row with the same key... -/
def pDupA : SpdRow :=
  { product_id := "tv-dup"
    spd_classification := Cell.str "WLED"
    spd_confidence := Cell.str "high"
    green_fwhm_nm := Cell.nan }

/-- ...and a second spectral row with the same key. -/
def pDupB : SpdRow :=
  { pDupA with spd_confidence := Cell.str "low" }

/-- C9 fails as stated: with a duplicated `product_id` in the spectral
table, the single specification row produces two merged rows, so the merge
does not produce "exactly one output row per row of S" unconditionally. -/
theorem c9_counterexample :
    (leftMerge [sDup] [pDupA, pDupB]).length = 2 ∧
    ([sDup] : List SpecRow).length = 1 := by
  decide

/-- C9 amended: provided each `product_id` occurs at most once in the
spectral table P, the merge is exactly the row-wise map of `mergeOne`
(hence one output row per S row, and a row S contains k times merges k
times), an S row with no match in P receives the NaN fill on every
spectral column, and a P row with no matching S row is dropped with no
observable effect. -/
theorem c9_merge (S : List SpecRow) (P : List SpdRow)
    (hP : P.Pairwise (fun a b => a.product_id ≠ b.product_id)) :
    leftMerge S P = S.map (mergeOne P) ∧
    (leftMerge S P).length = S.length ∧
    (∀ s, (∀ p ∈ P, p.product_id ≠ s.product_id) → mergeOne P s = mergeNull s) ∧
    (∀ s, (mergeNull s).spd_classification = Cell.nan ∧
      (mergeNull s).spd_confidence = Cell.nan ∧
      (mergeNull s).green_fwhm_nm = Cell.nan) ∧
    (∀ p0, (∀ s ∈ S, s.product_id ≠ p0.product_id) →
      leftMerge S (P ++ [p0]) = leftMerge S P) := by
  have hmap := leftMerge_eq_map S P hP
  refine ⟨hmap, ?_, ?_, ?_, ?_⟩
  · rw [hmap, List.length_map]
  · exact fun s hs => mergeOne_eq_null P s hs
  · exact fun s => ⟨rfl, rfl, rfl⟩
  · exact fun p0 h0 => leftMerge_orphan S P p0 h0

/-- A specification row with no spectral match. -/
def sLone : SpecRow :=
  { sDup with product_id := "tv-lone", fullname := "Sharp Aquos" , brand := "Sharp" }

theorem c9_merge_witness :
    (leftMerge [sDup, sLone] [pDupA]).length = 2 ∧
    mergeOne [pDupA] sLone = mergeNull sLone :=
  ⟨(c9_merge [sDup, sLone] [pDupA] (by simp)).2.1,
   (c9_merge [sDup, sLone] [pDupA] (by simp)).2.2.1 sLone (by decide)⟩

/-! ## Claim C10 — the dimming-zone parse -/

/-- C10 fails as stated: the raw value `"3.5"` is numeric, so
`pd.to_numeric` coerces it to 3.5, and the nullable-integer cast then
raises — the column transform is not total.  And the raw value `"-5"`
parses to the negative integer −5: nothing enforces non-negativity. -/
theorem c10_counterexample :
    dimmingParse (Cell.str "3.5") = Except.error () ∧
    dimmingParse (Cell.str "-5") = Except.ok (some (-5)) := by
  decide

/-- C10 amended: the parse never raises on a missing or non-numeric raw
value — those yield null — and a numeric raw value yields its integer value
when integral; only a numeric raw value with a nonzero fractional part
makes the cast raise. -/
theorem c10_dimming (c : Cell) :
    (toNumericCoerce c = FloatV.nan → dimmingParse c = Except.ok none) ∧
    (∀ d, toNumericCoerce c = FloatV.val d → d.isInt = true →
      dimmingParse c = Except.ok (some d.toInt)) ∧
    (∀ d, toNumericCoerce c = FloatV.val d → d.isInt = false →
      dimmingParse c = Except.error ()) := by
  refine ⟨fun h => ?_, fun d h hi => ?_, fun d h hi => ?_⟩
  · simp [dimmingParse, h, astypeInt64]
  · simp [dimmingParse, h, astypeInt64, hi]
  · simp [dimmingParse, h, astypeInt64, hi]

theorem c10_dimming_witness :
    dimmingParse (Cell.str "No local dimming") = Except.ok none :=
  (c10_dimming (Cell.str "No local dimming")).1 (by decide)
